import Mathlib

/-!
Shallow embedding of the vector data model of
`src/lib/segment/src/data_types/vectors.rs` and of the internal
point-operation conversions of
`src/lib/collection/src/shards/conversions.rs`, with theorems settling the
spec claims about them.

Float payloads (`f32` vector elements) are never computed with by any of
the functions under verification — they are only moved, stored and compared
structurally — so they are modelled by an opaque scalar type (`Int`).
-/

namespace Qdrant

/-- Element type of dense vectors (`f32` in the source, modelled opaquely). -/
abbrev VectorElementType := Int

/-- Sparse vector: explicit (index, value) pairs (`sparse::common::sparse_vector::SparseVector`). -/
structure SparseVector where
  indices : List Nat
  values : List VectorElementType
deriving DecidableEq, Repr

/-- Type for dense vector (`pub type VectorType = Vec<VectorElementType>`). -/
abbrev VectorType := List VectorElementType

/-- The atomic tagged union over dense and sparse vectors (`enum Vector`). -/
inductive Vector where
  | Dense (v : VectorType)
  | Sparse (v : SparseVector)
deriving DecidableEq, Repr

/-- Borrowed view over a `Vector` (`enum VectorRef`); borrowing has no
meaning in the embedding, so it carries the same data. -/
inductive VectorRef where
  | Dense (v : VectorType)
  | Sparse (v : SparseVector)
deriving DecidableEq, Repr

/-- Error type; the source `OperationError` has many variants, of which the
conversions here produce only `WrongSparse`. One other variant is kept so
that "fails with `WrongSparse`" is not vacuous. -/
inductive OperationError where
  | WrongSparse
  | ServiceError (description : String)
deriving DecidableEq, Repr

/-- The default (empty-string) vector name (`DEFAULT_VECTOR_NAME`). -/
def DEFAULT_VECTOR_NAME : String := ""

/-- `Vector::to_vec_ref`. -/
def Vector.to_vec_ref : Vector → VectorRef
  | Vector.Dense v => VectorRef.Dense v
  | Vector.Sparse v => VectorRef.Sparse v

/-- `impl TryFrom<VectorRef<'a>> for &'a [VectorElementType]` (vectors.rs:55-64). -/
def tryDenseOfVectorRef : VectorRef → Except OperationError VectorType
  | VectorRef.Dense v => Except.ok v
  | VectorRef.Sparse _ => Except.error OperationError.WrongSparse

/-- `impl TryFrom<VectorRef<'a>> for &'a SparseVector` (vectors.rs:66-75). -/
def trySparseOfVectorRef : VectorRef → Except OperationError SparseVector
  | VectorRef.Dense _ => Except.error OperationError.WrongSparse
  | VectorRef.Sparse v => Except.ok v

/-- `impl TryFrom<Vector> for VectorType` (vectors.rs:87-96). -/
def tryDenseOfVector : Vector → Except OperationError VectorType
  | Vector.Dense v => Except.ok v
  | Vector.Sparse _ => Except.error OperationError.WrongSparse

/-- `impl TryFrom<Vector> for SparseVector` (vectors.rs:98-107). -/
def trySparseOfVector : Vector → Except OperationError SparseVector
  | Vector.Dense _ => Except.error OperationError.WrongSparse
  | Vector.Sparse v => Except.ok v

/-- `VectorRef::len` (vectors.rs:165-170). -/
def VectorRef.len : VectorRef → Nat
  | VectorRef.Dense v => v.length
  | VectorRef.Sparse v => v.indices.length

/-- `VectorRef::is_empty` (vectors.rs:172-174): `self.len() == 0`. -/
def VectorRef.is_empty (r : VectorRef) : Bool := r.len == 0

/-- Modelled from the spec: the named vector collection (`NamedVectors`,
defined in `segment/src/data_types/named_vectors.rs`, which is not under
`src/`). The spec describes it as an order-irrelevant mapping from vector
field name to a `Vector` with unique names; it is embedded as an
association list with unique keys. -/
abbrev NamedVectors := List (String × Vector)

/-- Modelled from the spec: empty named vector collection (`NamedVectors::default`). -/
def NamedVectors.default : NamedVectors := []

/-- Modelled from the spec: number of entries (`NamedVectors::len`). -/
def NamedVectors.len (nv : NamedVectors) : Nat := nv.length

/-- Modelled from the spec: lookup by name, a miss is `none`, not an empty
vector (`NamedVectors::get`; the source returns a borrowed `VectorRef`,
the model returns the stored `Vector`). -/
def NamedVectors.get (nv : NamedVectors) (name : String) : Option Vector :=
  List.lookup name nv

/-- Modelled from the spec: key membership (`NamedVectors::contains_key`). -/
def NamedVectors.contains_key (nv : NamedVectors) (name : String) : Bool :=
  (NamedVectors.get nv name).isSome

/-- Modelled from the spec: flattening into an owned name-to-vector mapping
(`NamedVectors::into_owned_map`); the `HashMap` result is embedded as the
same association list. -/
def NamedVectors.into_owned_map (nv : NamedVectors) : List (String × Vector) := nv

/-- Modelled from the spec: `NamedVectors::from_map`. -/
def NamedVectors.from_map (m : List (String × Vector)) : NamedVectors := m

/-- `default_vector` (vectors.rs:199-201): one-entry collection under the default name. -/
def default_vector (vec : VectorType) : NamedVectors :=
  [(DEFAULT_VECTOR_NAME, Vector.Dense vec)]

/-- Point-level wire shape (`enum VectorStruct`): one unnamed dense vector
or a name-to-vector mapping (the `HashMap` embedded as an association list
with unique keys). -/
inductive VectorStruct where
  | Single (v : VectorType)
  | Multi (m : List (String × Vector))
deriving DecidableEq, Repr

/-- `VectorStruct::is_empty` (vectors.rs:217-225). -/
def VectorStruct.is_empty : VectorStruct → Bool
  | VectorStruct.Single vector => vector.isEmpty
  | VectorStruct.Multi vectors => vectors.all (fun p =>
      match p.2 with
      | Vector.Dense vector => vector.isEmpty
      | Vector.Sparse vector => vector.indices.isEmpty)

/-- `impl From<NamedVectors<'a>> for VectorStruct` (vectors.rs:249-258).
The source collapse branch runs two unchecked `unwrap`s; a panic is
modelled as `none`, a normal return as `some`. -/
def VectorStruct.fromNamedVectors (v : NamedVectors) : Option VectorStruct :=
  if NamedVectors.len v == 1 && NamedVectors.contains_key v DEFAULT_VECTOR_NAME then
    match NamedVectors.get v DEFAULT_VECTOR_NAME with
    | none => none
    | some w =>
      match tryDenseOfVectorRef w.to_vec_ref with
      | Except.error _ => none
      | Except.ok vector => some (VectorStruct.Single vector)
  else
    some (VectorStruct.Multi (NamedVectors.into_owned_map v))

/-- `VectorStruct::get` (vectors.rs:261-266). -/
def VectorStruct.get (vs : VectorStruct) (name : String) : Option VectorRef :=
  match vs with
  | VectorStruct.Single v =>
    if name == DEFAULT_VECTOR_NAME then some (VectorRef.Dense v) else none
  | VectorStruct.Multi v => (List.lookup name v).map Vector.to_vec_ref

/-- `VectorStruct::into_all_vectors` (vectors.rs:268-273). -/
def VectorStruct.into_all_vectors : VectorStruct → NamedVectors
  | VectorStruct.Single v => default_vector v
  | VectorStruct.Multi v => NamedVectors.from_map v

/-- `struct NamedVector` (vectors.rs:279-284). -/
structure NamedVector where
  name : String
  vector : VectorType
deriving DecidableEq, Repr

/-- `struct NamedSparseVector` (vectors.rs:289-295). -/
structure NamedSparseVector where
  name : String
  vector : SparseVector
deriving DecidableEq, Repr

/-- `enum NamedVectorStruct` (vectors.rs:315-319). -/
inductive NamedVectorStruct where
  | Default (v : VectorType)
  | Named (v : NamedVector)
  | Sparse (v : NamedSparseVector)
deriving DecidableEq, Repr

/-- `impl Named for NamedVectorStruct` (vectors.rs:343-351). -/
def NamedVectorStruct.get_name : NamedVectorStruct → String
  | NamedVectorStruct.Default _ => DEFAULT_VECTOR_NAME
  | NamedVectorStruct.Named v => v.name
  | NamedVectorStruct.Sparse v => v.name

/-- `struct NamedQuery<TQuery>` (vectors.rs:429-432); the source field is
called `using`. -/
structure NamedQuery (TQuery : Type) where
  query : TQuery
  using_ : Option String

/-- `impl Named for NamedQuery<T>` (vectors.rs:434-438):
`self.using.as_deref().unwrap_or(DEFAULT_VECTOR_NAME)`. -/
def NamedQuery.get_name {T : Type} (q : NamedQuery T) : String :=
  q.using_.getD DEFAULT_VECTOR_NAME

/-- Modelled from the spec: the batch transposition helper
`transpose_map_into_named_vector` (in `segment/src/common/utils.rs`, not
under `src/`). Spec 4.5: given a column-major mapping from field name to
per-point lists, produce one named collection per point index; for each
point index i the collection holds, for every field name present, the
vector at position i of that field's list. The caller contract guarantees
equal-length lists, so the number of records is read off the first list. -/
def transpose_map_into_named_vector (m : List (String × List Vector)) : List NamedVectors :=
  let k := match m.head? with
    | none => 0
    | some p => p.2.length
  (List.range k).map (fun i => m.filterMap (fun p => (p.2[i]?).map (fun v => (p.1, v))))

/-- `enum BatchVectorStruct` (vectors.rs:391-394). -/
inductive BatchVectorStruct where
  | Single (v : List VectorType)
  | Multi (m : List (String × List Vector))
deriving DecidableEq, Repr

/-- `BatchVectorStruct::into_all_vectors` (vectors.rs:403-414). -/
def BatchVectorStruct.into_all_vectors (b : BatchVectorStruct) (num_records : Nat) :
    List NamedVectors :=
  match b with
  | BatchVectorStruct.Single vectors => vectors.map default_vector
  | BatchVectorStruct.Multi named_vectors =>
    if named_vectors.isEmpty then
      List.replicate num_records NamedVectors.default
    else
      transpose_map_into_named_vector named_vectors

/-!
Embedding of `src/lib/collection/src/shards/conversions.rs` (the part the
claims need: `internal_set_payload` and `internal_delete_payload`). The
point-id, filter, payload and write-ordering types are opaque to these
functions — they are only mapped through their grpc conversions — so they
are modelled as opaque scalars with identity-like conversions kept as named
functions.
-/

/-- `PointIdType` (opaque to the conversions under verification). -/
abbrev PointIdType := Nat

/-- grpc `PointId` message (opaque model). -/
abbrev GrpcPointId := Nat

/-- The `id.into()` conversion from `PointIdType` to the grpc `PointId`. -/
def grpcPointIdOfPointId (id : PointIdType) : GrpcPointId := id

/-- `segment::types::Filter` (opaque model). -/
structure Filter where
  tag : Nat
deriving DecidableEq, Repr

/-- grpc `Filter` message (opaque model). -/
abbrev GrpcFilter := Filter

/-- The `filter.into()` conversion to the grpc `Filter`. -/
def grpcFilterOfFilter (f : Filter) : GrpcFilter := f

/-- Payload content (opaque model). -/
abbrev Payload := Nat

/-- grpc payload map (opaque model). -/
abbrev GrpcPayload := Nat

/-- `payload_to_proto` (opaque model). -/
def payload_to_proto (p : Payload) : GrpcPayload := p

/-- `WriteOrdering` (opaque model). -/
abbrev WriteOrdering := Nat

/-- grpc `WriteOrdering` message (opaque model). -/
abbrev GrpcWriteOrdering := Nat

/-- `write_ordering_to_proto` (opaque model). -/
def write_ordering_to_proto (w : WriteOrdering) : GrpcWriteOrdering := w

/-- `ShardId`. -/
abbrev ShardId := Nat

/-- grpc `PointsIdsList` message. -/
structure PointsIdsList where
  ids : List GrpcPointId
deriving DecidableEq, Repr

/-- grpc `points_selector::PointsSelectorOneOf`. -/
inductive PointsSelectorOneOf where
  | Points (l : PointsIdsList)
  | Filter (f : GrpcFilter)
deriving DecidableEq, Repr

/-- grpc `PointsSelector` message. -/
structure PointsSelector where
  points_selector_one_of : Option PointsSelectorOneOf
deriving DecidableEq, Repr

/-- `SetPayload` operation payload (`operations::payload_ops::SetPayload`). -/
structure SetPayload where
  payload : Payload
  points : Option (List PointIdType)
  filter : Option Filter
deriving DecidableEq, Repr

/-- `DeletePayload` operation payload (`operations::payload_ops::DeletePayload`). -/
structure DeletePayload where
  keys : List String
  points : Option (List PointIdType)
  filter : Option Filter
deriving DecidableEq, Repr

/-- grpc `SetPayloadPoints` message. -/
structure SetPayloadPoints where
  collection_name : String
  wait : Option Bool
  payload : GrpcPayload
  points : List GrpcPointId
  points_selector : Option PointsSelector
  ordering : Option GrpcWriteOrdering
deriving DecidableEq, Repr

/-- grpc `SetPayloadPointsInternal` message. -/
structure SetPayloadPointsInternal where
  shard_id : Option ShardId
  set_payload_points : Option SetPayloadPoints
deriving DecidableEq, Repr

/-- grpc `DeletePayloadPoints` message. -/
structure DeletePayloadPoints where
  collection_name : String
  wait : Option Bool
  keys : List String
  points : List GrpcPointId
  points_selector : Option PointsSelector
  ordering : Option GrpcWriteOrdering
deriving DecidableEq, Repr

/-- grpc `DeletePayloadPointsInternal` message. -/
structure DeletePayloadPointsInternal where
  shard_id : Option ShardId
  delete_payload_points : Option DeletePayloadPoints
deriving DecidableEq, Repr

/-- `internal_set_payload` (conversions.rs:110-143). The source initialises
`selected_points` to the empty vec and overwrites it only in the explicit
point-list branch. -/
def internal_set_payload (shard_id : Option ShardId) (collection_name : String)
    (set_payload : SetPayload) (wait : Bool) (ordering : Option WriteOrdering) :
    SetPayloadPointsInternal :=
  let sel : List GrpcPointId × Option PointsSelector :=
    match set_payload.points with
    | some points =>
      let selected_points := points.map grpcPointIdOfPointId
      (selected_points,
        some ⟨some (PointsSelectorOneOf.Points ⟨selected_points⟩)⟩)
    | none =>
      ([], set_payload.filter.map (fun filter =>
        ⟨some (PointsSelectorOneOf.Filter (grpcFilterOfFilter filter))⟩))
  { shard_id := shard_id
    set_payload_points := some
      { collection_name := collection_name
        wait := some wait
        payload := payload_to_proto set_payload.payload
        points := sel.1
        points_selector := sel.2
        ordering := ordering.map write_ordering_to_proto } }

/-- `internal_delete_payload` (conversions.rs:145-177). -/
def internal_delete_payload (shard_id : Option ShardId) (collection_name : String)
    (delete_payload : DeletePayload) (wait : Bool) (ordering : Option WriteOrdering) :
    DeletePayloadPointsInternal :=
  let sel : List GrpcPointId × Option PointsSelector :=
    match delete_payload.points with
    | some points =>
      let selected_points := points.map grpcPointIdOfPointId
      (selected_points,
        some ⟨some (PointsSelectorOneOf.Points ⟨selected_points⟩)⟩)
    | none =>
      ([], delete_payload.filter.map (fun filter =>
        ⟨some (PointsSelectorOneOf.Filter (grpcFilterOfFilter filter))⟩))
  { shard_id := shard_id
    delete_payload_points := some
      { collection_name := collection_name
        wait := some wait
        keys := delete_payload.keys
        points := sel.1
        points_selector := sel.2
        ordering := ordering.map write_ordering_to_proto } }

/-!
Theorems settling the claims.
-/

/-- C4: for every `Vector` and `VectorRef` value, narrowing to the opposite
variant always fails with the `WrongSparse` variant-mismatch error, and
narrowing to the matching variant succeeds with the contained value. -/
theorem claim_C4_variant_safety (d : VectorType) (s : SparseVector) :
    tryDenseOfVectorRef (VectorRef.Dense d) = Except.ok d ∧
    trySparseOfVectorRef (VectorRef.Dense d) = Except.error OperationError.WrongSparse ∧
    trySparseOfVectorRef (VectorRef.Sparse s) = Except.ok s ∧
    tryDenseOfVectorRef (VectorRef.Sparse s) = Except.error OperationError.WrongSparse ∧
    tryDenseOfVector (Vector.Dense d) = Except.ok d ∧
    trySparseOfVector (Vector.Dense d) = Except.error OperationError.WrongSparse ∧
    trySparseOfVector (Vector.Sparse s) = Except.ok s ∧
    tryDenseOfVector (Vector.Sparse s) = Except.error OperationError.WrongSparse :=
  ⟨rfl, rfl, rfl, rfl, rfl, rfl, rfl, rfl⟩

/-- C5: for every `num_records` k, `BatchVectorStruct::into_all_vectors` on
a `Multi` variant with an empty mapping returns exactly k empty named
collections. -/
theorem claim_C5_empty_batch (k : Nat) :
    (BatchVectorStruct.Multi []).into_all_vectors k =
      List.replicate k NamedVectors.default ∧
    ((BatchVectorStruct.Multi []).into_all_vectors k).length = k ∧
    ∀ c ∈ (BatchVectorStruct.Multi []).into_all_vectors k, c = NamedVectors.default := by
  refine ⟨rfl, ?_, ?_⟩
  · simp [BatchVectorStruct.into_all_vectors]
  · intro c hc
    simpa using List.eq_of_mem_replicate hc

/-- C6: `VectorStruct::get` on a `Single` returns the vector as a
`VectorRef` iff the requested name is the default empty-string name, and
`none` for any other name; on a `Multi` it returns the mapping's entry for
the name, or `none` when absent. -/
theorem claim_C6_get (v : VectorType) (name : String) (m : List (String × Vector)) :
    ((VectorStruct.Single v).get name = some (VectorRef.Dense v) ↔
      name = DEFAULT_VECTOR_NAME) ∧
    (name ≠ DEFAULT_VECTOR_NAME → (VectorStruct.Single v).get name = none) ∧
    (VectorStruct.Multi m).get name = (List.lookup name m).map Vector.to_vec_ref := by
  refine ⟨?_, ?_, rfl⟩
  · by_cases h : name = DEFAULT_VECTOR_NAME <;> simp [VectorStruct.get, h]
  · intro h
    simp [VectorStruct.get, h]

/-- C6 witness: a non-default name misses on a `Single`. -/
theorem claim_C6_get_witness :
    (VectorStruct.Single [1]).get "other" = none :=
  (claim_C6_get [1] "other" []).2.1 (by decide)

/-- C7: `NamedVectorStruct::Default` resolves to the default empty-string
name; `Named` and `Sparse` return the carried name verbatim (including an
explicit empty string); `NamedQuery::get_name` is the default name when
`using` is `none` and the carried name otherwise. -/
theorem claim_C7_get_name (d : VectorType) (nm : String) (sv : SparseVector)
    (T : Type) (q : T) (n : String) :
    (NamedVectorStruct.Default d).get_name = DEFAULT_VECTOR_NAME ∧
    (NamedVectorStruct.Named ⟨nm, d⟩).get_name = nm ∧
    (NamedVectorStruct.Sparse ⟨nm, sv⟩).get_name = nm ∧
    (NamedQuery.mk q none).get_name = DEFAULT_VECTOR_NAME ∧
    (NamedQuery.mk q (some n)).get_name = n :=
  ⟨rfl, rfl, rfl, rfl, rfl⟩

/-- C8: `VectorRef::len` is the element count for a dense vector and the
explicit-index count for a sparse one, and `is_empty` holds exactly when
that length is zero. -/
theorem claim_C8_len (d : VectorType) (s : SparseVector) (r : VectorRef) :
    (VectorRef.Dense d).len = d.length ∧
    (VectorRef.Sparse s).len = s.indices.length ∧
    (r.is_empty = true ↔ r.len = 0) := by
  refine ⟨rfl, rfl, ?_⟩
  simp [VectorRef.is_empty]

/-- C9: `VectorStruct::is_empty` on a `Multi` holds exactly when every
entry has zero elements (empty dense vector or empty sparse index set); on
a `Single` it equals the contained vector's emptiness. -/
theorem claim_C9_is_empty (m : List (String × Vector)) (v : VectorType) :
    ((VectorStruct.Multi m).is_empty = true ↔
      ∀ p ∈ m, match p.2 with
        | Vector.Dense d => d = []
        | Vector.Sparse s => s.indices = []) ∧
    (VectorStruct.Single v).is_empty = v.isEmpty := by
  refine ⟨?_, rfl⟩
  simp only [VectorStruct.is_empty, List.all_eq_true]
  constructor
  · intro h p hp
    have hb := h p hp
    rcases p with ⟨n, w⟩
    cases w <;> simpa [List.isEmpty_iff] using hb
  · intro h p hp
    have hb := h p hp
    rcases p with ⟨n, w⟩
    cases w <;> simp_all [List.isEmpty_iff]

/-- C1 counterexample: a collection with exactly one entry under the
default name whose vector is sparse does not collapse to `Single`; the
conversion hits the unchecked `unwrap` (modelled as `none`) instead of
producing a value. -/
theorem claim_C1_counterexample :
    VectorStruct.fromNamedVectors
      [(DEFAULT_VECTOR_NAME, Vector.Sparse ⟨[0], [1]⟩)] = none := by
  decide

/-- C1 (amended): for every one-entry collection under the default name
whose vector is dense, `VectorStruct::from` produces `Single` and
`into_all_vectors` expands it back to the identical collection; conversely
`Single(v).into_all_vectors()` is always the one-entry collection keyed by
the default name. -/
theorem claim_C1_roundtrip (d : VectorType) :
    VectorStruct.fromNamedVectors [(DEFAULT_VECTOR_NAME, Vector.Dense d)] =
      some (VectorStruct.Single d) ∧
    (VectorStruct.Single d).into_all_vectors =
      [(DEFAULT_VECTOR_NAME, Vector.Dense d)] := by
  constructor
  · rfl
  · rfl

/-- C10: the collapse branch of `VectorStruct::from` is total exactly under
the precondition that a sole default-named entry holds a dense vector; a
sole default-named sparse entry makes the unchecked `unwrap` panic
(modelled as `none`) instead of returning a value or a typed error. -/
theorem claim_C10_unwrap_totality :
    (∀ nv : NamedVectors,
      (∀ w, NamedVectors.len nv = 1 →
        NamedVectors.get nv DEFAULT_VECTOR_NAME = some w → ∃ d, w = Vector.Dense d) →
      (VectorStruct.fromNamedVectors nv).isSome = true) ∧
    (∀ s : SparseVector,
      VectorStruct.fromNamedVectors [(DEFAULT_VECTOR_NAME, Vector.Sparse s)] = none) := by
  constructor
  · intro nv h
    unfold VectorStruct.fromNamedVectors
    by_cases hg : (NamedVectors.len nv == 1 &&
        NamedVectors.contains_key nv DEFAULT_VECTOR_NAME) = true
    · rw [if_pos hg]
      simp only [Bool.and_eq_true] at hg
      obtain ⟨hb, hck⟩ := hg
      have hlen : NamedVectors.len nv = 1 := by simpa using hb
      obtain ⟨w, hw⟩ := Option.isSome_iff_exists.mp hck
      rw [hw]
      obtain ⟨d, rfl⟩ := h w hlen hw
      rfl
    · rw [if_neg hg]
      rfl
  · intro s
    unfold VectorStruct.fromNamedVectors
    rw [if_pos]
    · rw [show NamedVectors.get [(DEFAULT_VECTOR_NAME, Vector.Sparse s)]
          DEFAULT_VECTOR_NAME = some (Vector.Sparse s) from rfl]
      rfl
    · rfl

/-- C10 witness: a one-entry default-named dense collection converts
without hitting the `unwrap`. -/
theorem claim_C10_unwrap_totality_witness :
    (VectorStruct.fromNamedVectors
      [(DEFAULT_VECTOR_NAME, Vector.Dense [1])]).isSome = true :=
  claim_C10_unwrap_totality.1 [(DEFAULT_VECTOR_NAME, Vector.Dense [1])]
    (fun _w _ hw => ⟨[1], (Option.some.inj hw).symm⟩)

/-- C2: when a set-payload or delete-payload conversion is given both a
non-empty explicit point-id list and a filter, the internal message's
`points_selector` encodes the id list (not the filter) and the deprecated
flat `points` field equals that same id list; the filter-based selector is
used only when no id list is supplied. -/
theorem claim_C2_selector_precedence
    (sid : Option ShardId) (cn : String) (w : Bool) (ord : Option WriteOrdering)
    (sp : SetPayload) (dp : DeletePayload) (sp2 : SetPayload) (dp2 : DeletePayload)
    (ps qs : List PointIdType) (f g : Filter)
    (hsp : sp.points = some ps) (hspf : sp.filter = some f) (_hps : ps ≠ [])
    (hdp : dp.points = some qs) (hdpf : dp.filter = some g) (_hqs : qs ≠ [])
    (hsp2 : sp2.points = none) (hdp2 : dp2.points = none) :
    ((internal_set_payload sid cn sp w ord).set_payload_points).map
        SetPayloadPoints.points_selector =
      some (some ⟨some (PointsSelectorOneOf.Points ⟨ps.map grpcPointIdOfPointId⟩)⟩) ∧
    ((internal_set_payload sid cn sp w ord).set_payload_points).map
        SetPayloadPoints.points = some (ps.map grpcPointIdOfPointId) ∧
    ((internal_delete_payload sid cn dp w ord).delete_payload_points).map
        DeletePayloadPoints.points_selector =
      some (some ⟨some (PointsSelectorOneOf.Points ⟨qs.map grpcPointIdOfPointId⟩)⟩) ∧
    ((internal_delete_payload sid cn dp w ord).delete_payload_points).map
        DeletePayloadPoints.points = some (qs.map grpcPointIdOfPointId) ∧
    ((internal_set_payload sid cn sp2 w ord).set_payload_points).map
        SetPayloadPoints.points_selector =
      some (sp2.filter.map (fun fl =>
        ⟨some (PointsSelectorOneOf.Filter (grpcFilterOfFilter fl))⟩)) ∧
    ((internal_delete_payload sid cn dp2 w ord).delete_payload_points).map
        DeletePayloadPoints.points_selector =
      some (dp2.filter.map (fun fl =>
        ⟨some (PointsSelectorOneOf.Filter (grpcFilterOfFilter fl))⟩)) := by
  obtain ⟨pl1, pts1, fl1⟩ := sp
  obtain ⟨ks1, pts2, fl2⟩ := dp
  obtain ⟨pl2, pts3, fl3⟩ := sp2
  obtain ⟨ks2, pts4, fl4⟩ := dp2
  simp only at hsp hdp hsp2 hdp2
  subst hsp hdp hsp2 hdp2
  exact ⟨rfl, rfl, rfl, rfl, rfl, rfl⟩

/-- C2 witness: concrete set-payload conversion with both an id list and a
filter carries the id list in the structured selector and in the flat
field. -/
theorem claim_C2_selector_precedence_witness :
    ((internal_set_payload none "c" ⟨0, some [1, 2], some ⟨7⟩⟩ true none).set_payload_points).map
        SetPayloadPoints.points_selector =
      some (some ⟨some (PointsSelectorOneOf.Points ⟨[1, 2]⟩)⟩) ∧
    ((internal_set_payload none "c" ⟨0, some [1, 2], some ⟨7⟩⟩ true none).set_payload_points).map
        SetPayloadPoints.points = some [1, 2] :=
  ⟨(claim_C2_selector_precedence none "c" true none
      ⟨0, some [1, 2], some ⟨7⟩⟩ ⟨["k"], some [3], some ⟨8⟩⟩
      ⟨0, none, some ⟨9⟩⟩ ⟨[], none, none⟩
      [1, 2] [3] ⟨7⟩ ⟨8⟩ rfl rfl (by decide) rfl rfl (by decide) rfl rfl).1,
    (claim_C2_selector_precedence none "c" true none
      ⟨0, some [1, 2], some ⟨7⟩⟩ ⟨["k"], some [3], some ⟨8⟩⟩
      ⟨0, none, some ⟨9⟩⟩ ⟨[], none, none⟩
      [1, 2] [3] ⟨7⟩ ⟨8⟩ rfl rfl (by decide) rfl rfl (by decide) rfl rfl).2.1⟩

/-- Looking up a field name in the transposed column for point index i
returns that field's vector at position i, provided the name is present,
keys are unique, and every per-field list is long enough. -/
theorem lookup_transposed_column (i : Nat) :
    ∀ (m : List (String × List Vector)) (name : String) (l : List Vector),
      (name, l) ∈ m → (m.map Prod.fst).Nodup →
      (∀ p ∈ m, i < (Prod.snd p).length) →
      List.lookup name
        (m.filterMap (fun p => ((Prod.snd p)[i]?).map (fun v => (p.1, v)))) = l[i]? := by
  intro m
  induction m with
  | nil =>
    intro name l hmem _ _
    exact absurd hmem (List.not_mem_nil _)
  | cons hd t ih =>
    intro name l hmem hnd hlen
    obtain ⟨a, la⟩ := hd
    have hla : i < la.length := hlen (a, la) (List.mem_cons_self _ _)
    have hv : la[i]? = some la[i] := List.getElem?_eq_getElem hla
    have hnd' : (∀ x : List Vector, (a, x) ∉ t) ∧ (t.map Prod.fst).Nodup := by
      simpa using hnd
    rcases List.mem_cons.mp hmem with heq | hmem'
    · injection heq with h1 h2
      subst h1
      subst h2
      simp [List.filterMap_cons, hv, List.lookup]
    · have hne : name ≠ a := fun h => hnd'.1 l (h ▸ hmem')
      have hbeq : (name == a) = false := beq_eq_false_iff_ne.mpr hne
      rw [List.filterMap_cons]
      rw [show ((a, la).2)[i]? = some la[i] from hv]
      simp only [Option.map_some']
      rw [show List.lookup name ((a, la[i]) ::
          t.filterMap (fun p => ((Prod.snd p)[i]?).map (fun v => (p.1, v)))) =
          List.lookup name
            (t.filterMap (fun p => ((Prod.snd p)[i]?).map (fun v => (p.1, v))))
        from by simp [List.lookup, hbeq]]
      exact ih name l hmem' hnd'.2 (fun p hp => hlen p (List.mem_cons_of_mem _ hp))

/-- C3: for a batch of k points with a `Multi` mapping of named fields each
holding a length-k list (unique names), `BatchVectorStruct::into_all_vectors`
produces exactly k named collections such that collection i maps every
field name to position i of that field's list; a `Single` batch maps each
positional dense vector in order to a one-entry default-named collection. -/
theorem claim_C3_batch_transposition (m : List (String × List Vector)) (k : Nat)
    (hne : m ≠ []) (hnd : (m.map Prod.fst).Nodup)
    (hlen : ∀ p ∈ m, (Prod.snd p).length = k) :
    ((BatchVectorStruct.Multi m).into_all_vectors k).length = k ∧
    (∀ i, i < k → ∀ name l, (name, l) ∈ m →
      (((BatchVectorStruct.Multi m).into_all_vectors k)[i]?).bind
          (fun c => NamedVectors.get c name) = l[i]? ∧ (l[i]?).isSome = true) ∧
    (∀ (vs : List VectorType) (j : Nat),
      ((BatchVectorStruct.Single vs).into_all_vectors k)[j]? =
        (vs[j]?).map default_vector) := by
  obtain ⟨p0, t0, rfl⟩ := List.exists_cons_of_ne_nil hne
  have hk0 : p0.2.length = k := hlen p0 (List.mem_cons_self _ _)
  refine ⟨?_, ?_, ?_⟩
  · simp [BatchVectorStruct.into_all_vectors, transpose_map_into_named_vector, hk0]
  · intro i hi name l hmem
    have hlen' : ∀ p ∈ p0 :: t0, i < (Prod.snd p).length :=
      fun p hp => (hlen p hp) ▸ hi
    have hsome : (l[i]?).isSome = true := by
      rw [List.getElem?_eq_getElem ((hlen _ hmem) ▸ hi)]
      rfl
    refine ⟨?_, hsome⟩
    have hres : ((BatchVectorStruct.Multi (p0 :: t0)).into_all_vectors k)[i]? =
        some ((p0 :: t0).filterMap
          (fun p => ((Prod.snd p)[i]?).map (fun v => (p.1, v)))) := by
      simp [BatchVectorStruct.into_all_vectors, transpose_map_into_named_vector,
        List.getElem?_map, List.getElem?_range, hk0, hi]
    rw [hres]
    simpa [NamedVectors.get] using
      lookup_transposed_column i (p0 :: t0) name l hmem hnd hlen'
  · intro vs j
    simp [BatchVectorStruct.into_all_vectors, List.getElem?_map]

/-- C3 witness: a concrete two-field, two-point batch transposes so that
collection 1 maps field a to list position 1. -/
theorem claim_C3_batch_transposition_witness :
    (((BatchVectorStruct.Multi
        [("a", [Vector.Dense [1], Vector.Dense [2]]),
         ("b", [Vector.Dense [3], Vector.Dense [4]])]).into_all_vectors 2)[1]?).bind
        (fun c => NamedVectors.get c "a") = some (Vector.Dense [2]) :=
  ((claim_C3_batch_transposition
      [("a", [Vector.Dense [1], Vector.Dense [2]]),
       ("b", [Vector.Dense [3], Vector.Dense [4]])] 2
      (by decide) (by decide) (by decide)).2.1 1 (by decide)
      "a" [Vector.Dense [1], Vector.Dense [2]] (by decide)).1

/-- C5 witness: each member of the empty-mapping batch expansion is the
empty collection. -/
theorem claim_C5_empty_batch_witness :
    NamedVectors.default ∈ (BatchVectorStruct.Multi []).into_all_vectors 2 ∧
    NamedVectors.default = NamedVectors.default :=
  ⟨by decide, (claim_C5_empty_batch 2).2.2 NamedVectors.default (by decide)⟩

/-- C8 witness: an empty dense reference is empty. -/
theorem claim_C8_len_witness :
    (VectorRef.Dense ([] : VectorType)).is_empty = true :=
  (claim_C8_len [] ⟨[], []⟩ (VectorRef.Dense [])).2.2.mpr rfl

/-- C9 witness: a one-entry `Multi` holding an empty dense vector reports
overall emptiness. -/
theorem claim_C9_is_empty_witness :
    (VectorStruct.Multi [(DEFAULT_VECTOR_NAME, Vector.Dense [])]).is_empty = true :=
  (claim_C9_is_empty [(DEFAULT_VECTOR_NAME, Vector.Dense [])] []).1.mpr (by
    intro p hp
    rw [List.mem_singleton] at hp
    subst hp
    rfl)

end Qdrant
